import Mathlib

/-!
# Verification of the ProofGuard heuristic analyzer

A shallow embedding of `backend/analyzer/image_detector.py`.

Modelling conventions:
* Python floats are modelled by `ℚ`.  Every constant appearing in the
  scoring rules is an exact decimal, so the additive rule engine is
  represented exactly.
* Python strings are modelled by Lean `String`; `str.lower()` is modelled
  by an explicit ASCII case fold (`pyLower`), which agrees with Python on
  the ASCII texts the keyword machinery works with.
* Pillow / numpy / easyocr calls are modelled by an abstract `PyImage`
  record: each composite library query used by an extractor is a field of
  type `Except String τ` (`.error` models a raised Python exception, which
  the extractors catch).  The arithmetic, guards, clamping and defaults
  around those calls are translated directly from the source.
* `random.uniform` draws and the results of `bytes.decode` / pdfminer
  extraction are supplied through an `Env` record, one field per call
  site, so the top-level dispatcher `analyze_image` is a total function of
  the request plus that environment.
-/

/-- ASCII case-folding of a single character, modelling Python `str.lower`
on the ASCII range (the keyword list and the claims only involve ASCII). -/
def pyLowerChar (c : Char) : Char :=
  if 'A' ≤ c ∧ c ≤ 'Z' then Char.ofNat (c.toNat + 32) else c

/-- `s.lower()` on a whole string. -/
def pyLower (s : String) : String := ⟨s.data.map pyLowerChar⟩

/-- Python `str.split(sep)` for a one-character separator (always returns a
nonempty list; `"" .split "." = [""]`). -/
def splitOnChar (sep : Char) : List Char → List (List Char)
  | [] => [[]]
  | c :: rest =>
    let r := splitOnChar sep rest
    if c = sep then [] :: r
    else
      match r with
      | [] => [[c]]
      | h :: t => (c :: h) :: t

/-- `(filename or "").lower().split(".")[-1]` — the dispatch key of
`analyze_image`.  Note that a filename without a `.` yields the whole
lowercased filename, not the empty string. -/
def fileExt (filename : String) : String :=
  ⟨(splitOnChar '.' (pyLower filename).data).getLastD []⟩

theorem charToNat_ofNat {n : ℕ} (h : n.isValidChar) : (Char.ofNat n).toNat = n := by
  rw [Char.ofNat, dif_pos h]
  rfl

theorem pyLowerChar_eq_dot {c : Char} (h : pyLowerChar c = '.') : c = '.' := by
  unfold pyLowerChar at h
  split_ifs at h with hc
  · exfalso
    obtain ⟨h1, h2⟩ := hc
    have v1 : 65 ≤ c.toNat := h1
    have v2 : c.toNat ≤ 90 := h2
    have hv : (c.toNat + 32).isValidChar := by
      left
      omega
    have h46 := congrArg Char.toNat h
    rw [charToNat_ofNat hv] at h46
    have : c.toNat + 32 = 46 := h46
    omega
  · exact h

theorem splitOnChar_of_not_mem {sep : Char} : ∀ {l : List Char}, sep ∉ l →
    splitOnChar sep l = [l]
  | [], _ => rfl
  | c :: rest, h => by
    have hc : ¬ c = sep := fun e => h (e ▸ List.mem_cons_self c rest)
    have hrest : sep ∉ rest := fun m => h (List.mem_cons_of_mem _ m)
    unfold splitOnChar
    rw [splitOnChar_of_not_mem hrest]
    simp [hc]

/-! ## Keyword scanning (`AI_KEYWORDS`, `_find_hits`) -/

/-- The fixed keyword list, in source order (initial list plus the
`extend` block). -/
def AI_KEYWORDS : List String := [
  "stable diffusion", "sdxl", "automatic1111", "a1111", "comfyui", "invokeai",
  "midjourney", "dall-e", "dalle", "openai image", "novelai", "leonardo", "firefly",
  "runwayml", "ideogram", "craiyon", "image creator", "bing image creator",
  "ai-generated", "ai generated", "generative", "diffusion", "latent",
  "parameters:", "negative prompt:", "sampler", "cfg scale", "steps:", "seed:",
  "generative fill",
  "photoshop generative",
  "stable studio",
  "midjourney v6",
  "glm image",
  "gpt image",
  "image creator by bing"]

/-- Python regex `\s` (ASCII part). -/
def isSpaceChar (c : Char) : Bool :=
  c == ' ' || c == '\t' || c == '\n' || c == '\x0d' || c == '\x0b' || c == '\x0c'

/-- Python regex `\w` (ASCII part: letters, digits, underscore). -/
def isWordChar (c : Char) : Bool := c.isAlphanum || c == '_'

/-- Match `\s*:` at the head of the text (the part of the prompt regex that
follows `prompt`; the trailing `\s*` of the pattern always matches). -/
def colonAfterSpaces (l : List Char) : Bool :=
  match l.dropWhile isSpaceChar with
  | ':' :: _ => true
  | _ => false

/-- Strip a literal word from the head of the text. -/
def stripWord (w : List Char) (l : List Char) : Option (List Char) :=
  if w.isPrefixOf l then some (l.drop w.length) else none

/-- Match `(prompt|negative\s+prompt)\s*:` at the head of the text. -/
def matchPromptCore (l : List Char) : Bool :=
  (match stripWord "prompt".data l with
   | some rest => colonAfterSpaces rest
   | none => false)
  ||
  (match stripWord "negative".data l with
   | some rest =>
     match rest with
     | c :: _ =>
       isSpaceChar c &&
         (match stripWord "prompt".data (rest.dropWhile isSpaceChar) with
          | some rest2 => colonAfterSpaces rest2
          | none => false)
     | [] => false
   | none => false)

/-- `re.search(r"\b(prompt|negative\s+prompt)\s*:\s*", lower)`: scan every
position; the leading `\b` holds iff the previous character is a non-word
character (or we are at the start), since the match itself starts with a
word character. -/
def promptSearch : Bool → List Char → Bool
  | _, [] => false
  | boundary, c :: rest =>
    (boundary && matchPromptCore (c :: rest)) || promptSearch (! isWordChar c) rest

/-- `_find_hits`: all keywords occurring as substrings of the lowercased
text, in keyword-list order, then the synthetic `"prompt field"` hit when
the prompt regex matches. -/
def find_hits (text : String) : List String :=
  let lower := pyLower text
  (AI_KEYWORDS.filter fun kw => decide (kw.data <:+: lower.data)) ++
    (if promptSearch true lower.data then ["prompt field"] else [])

example : find_hits "Made with Stable Diffusion." = ["stable diffusion", "diffusion"] := by decide
example : find_hits "Negative Prompt:   blurry" =
    ["negative prompt:", "prompt field"] := by decide
example : find_hits "xprompt: a" = [] := by decide
example : find_hits "a prompt : b" = ["prompt field"] := by decide

/-! ## Abstract decoded image (`PIL.Image` object) and the pixel-signal
extractors.

Each composite Pillow/numpy query an extractor performs is a field of
`PyImage` of type `Except String τ`: `.error msg` models the query raising
a Python exception (as it does, e.g., on a degenerate zero-byte decode),
which the surrounding `try/except` of the extractor catches.  All control
flow, guards, arithmetic and clamping around the queries are translated
from the source. -/

structure PyImage where
  /-- `img.size` / `img.mode` / `img.format or ""` (plain attributes). -/
  width : ℕ
  height : ℕ
  mode : String
  formatStr : String
  /-- `img.info` items, values already `str`-ed (insertion order). -/
  info : List (String × String)
  /-- truthiness of `(img.info or {}).get('quantization')`. -/
  quantizationPresent : Bool
  /-- `img.getexif()` decoded to (tag name, `str` value) pairs; `.ok []`
  models an image carrying no EXIF data (falsy EXIF object). -/
  exifTags : Except String (List (String × String))
  /-- result of the `_ocr_text` body (easyocr strings joined by `\n`). -/
  ocrBody : Except String String
  /-- `img.convert("L").histogram()` (256 intensity counts). -/
  grayHistogram : Except String (List ℕ)
  /-- mean of `FIND_EDGES`-filtered grayscale (`ImageStat.Stat(edges).mean[0]`). -/
  edgesMean : Except String ℚ
  /-- per-channel means of the ELA difference image. -/
  elaChannelMeans : Except String (List ℚ)
  /-- counts from `small.getcolors(maxcolors=200*200)`; `none` models the
  `None` returned when the image has more colors than `maxcolors`. -/
  colorCounts : Except String (Option (List ℕ))
  /-- shape of the grayscale numpy array (rows, cols). -/
  grayShape : Except String (ℕ × ℕ)
  /-- variance of the 3×3 Laplacian convolution. -/
  lapConvVar : Except String ℚ
  /-- shape of the ≤256×256 thumbnail grayscale array. -/
  smallShape : Except String (ℕ × ℕ)
  /-- per-16×16-block intensity variances of the thumbnail. -/
  blockVars : Except String (List ℚ)
  /-- mean and std of the grayscale array. -/
  grayMeanStd : Except String (ℚ × ℚ)
  /-- mean and std of the HSV saturation channel. -/
  satMeanStd : Except String (ℚ × ℚ)
  /-- third-central-moment skewness value (used when std ≥ 1e-6). -/
  graySkewRaw : Except String ℚ
  /-- grayscale pixel values as a flat list (`np.asarray(gray, uint8)`). -/
  grayPixels : Except String (List ℕ)
  /-- shape of the YCbCr luma channel array. -/
  yShape : Except String (ℕ × ℕ)
  /-- mean abs luma step across vertical 8×8 block boundaries. -/
  vBoundaryMean : Except String ℚ
  /-- mean abs luma step across horizontal 8×8 block boundaries. -/
  hBoundaryMean : Except String ℚ
  /-- mean abs luma step at interior (non-boundary) column offsets. -/
  interiorVMean : Except String ℚ
  /-- mean abs luma step at interior (non-boundary) row offsets. -/
  interiorHMean : Except String ℚ
  /-- (luma std, averaged chroma std `0.5*(cb.std()+cr.std())`). -/
  ycStds : Except String (ℚ × ℚ)

/-- `try: body except: return d` — the exception wrapper every extractor
uses. -/
def exceptD {α : Type} (d : α) : Except String α → α
  | .ok v => v
  | .error _ => d

/-- `_shannon_entropy` (base-2 entropy of the grayscale histogram).  The
transcendental `math.log2` is supplied abstractly as `log2`; when the
histogram is all zeros the loop body never runs and the result is `0.0`. -/
def shannon_entropy (log2 : ℚ → ℚ) (img : PyImage) : ℚ :=
  exceptD 0 <| do
    let hist ← img.grayHistogram
    let total : ℚ := (hist.sum : ℕ)
    pure <| hist.foldl
      (fun entropy count =>
        if count = 0 then entropy
        else entropy - ((count : ℚ) / total) * log2 ((count : ℚ) / total)) 0

/-- `_edge_density`: mean of the edge-filtered grayscale, normalized and
clamped to `[0,1]` (Pillow submodules are present whenever the image
branch runs at all, so the `ImageFilter is None` guard is not taken). -/
def edge_density (img : PyImage) : ℚ :=
  exceptD 0 <| do
    let mean ← img.edgesMean
    pure <| max 0 (min 1 (mean / 255))

/-- `_ela_mean`: average of the per-channel means of the JPEG-recompression
difference image. -/
def ela_mean (img : PyImage) : ℚ :=
  exceptD 0 <| do
    let means ← img.elaChannelMeans
    pure <| means.sum / ((max 1 means.length : ℕ) : ℚ)

/-- `_color_unique_ratio`: distinct colors over total pixels of the ≤200×200
thumbnail, clamped to `[0,1]`; `0.0` when `getcolors` returns `None` or an
empty list. -/
def color_unique_ratio (img : PyImage) : ℚ :=
  exceptD 0 <| do
    let colors ← img.colorCounts
    match colors with
    | none => pure 0
    | some counts =>
      if counts = [] then pure 0
      else pure <| max 0 (min 1 ((counts.length : ℚ) / ((max 1 counts.sum : ℕ) : ℚ)))

/-- The canonical camera EXIF fields checked by `_exif_missing`. -/
def exifKeys : List String :=
  ["Make", "Model", "DateTimeOriginal", "LensModel", "FNumber", "ExposureTime"]

/-- Python `dict` update `m[k] = v` on an insertion-ordered assoc list. -/
def dictUpd (m : List (String × String)) (k v : String) : List (String × String) :=
  if (m.lookup k).isSome then m.map (fun p => if p.1 = k then (k, v) else p)
  else m ++ [(k, v)]

/-- Build a Python dict from pairs in order. -/
def dictOf (ps : List (String × String)) : List (String × String) :=
  ps.foldl (fun m p => dictUpd m p.1 p.2) []

/-- `_exif_missing`: `(exif_complete, missing)`.  With no EXIF data at all
(or if `getexif` raises) the result is `(False, [])` — the missing list
stays empty. -/
def exif_missing (img : PyImage) : Bool × List String :=
  match img.exifTags with
  | .error _ => (false, [])
  | .ok tags =>
    if tags = [] then (false, [])
    else
      let tagMap := dictOf tags
      let missing := exifKeys.filter fun key =>
        match tagMap.lookup key with
        | none => true
        | some v => v.trim == ""
      (missing.isEmpty, missing)

/-- `_laplacian_variance`: `0.0` when either grayscale dimension is below 3,
else the variance of the 3×3 Laplacian convolution. -/
def laplacian_variance (img : PyImage) : ℚ :=
  exceptD 0 <| do
    let (h, w) ← img.grayShape
    if min h w < 3 then pure 0 else img.lapConvVar

/-- `_flat_block_ratio` (block=16, var_thresh=20.0): fraction of low-variance
16×16 blocks of the ≤256×256 thumbnail, clamped to `[0,1]`. -/
def flat_block_ratio (img : PyImage) : ℚ :=
  exceptD 0 <| do
    let (h, w) ← img.smallShape
    if h < 16 ∨ w < 16 then pure 0
    else do
      let vars ← img.blockVars
      let flat : ℚ := ((vars.filter fun v => decide (v < 20)).length : ℕ)
      let total : ℚ := (vars.length : ℕ)
      pure <| max 0 (min 1 (flat / max 1 total))

/-- `_brightness_stats`: mean and std of grayscale, `(0.0, 0.0)` on failure. -/
def brightness_stats (img : PyImage) : ℚ × ℚ :=
  exceptD (0, 0) img.grayMeanStd

/-- `_saturation_stats`: mean and std of the saturation channel. -/
def saturation_stats (img : PyImage) : ℚ × ℚ :=
  exceptD (0, 0) img.satMeanStd

/-- `_gray_skewness`: `0.0` when the std is below `1e-6`, else the
third-central-moment skewness. -/
def gray_skewness (img : PyImage) : ℚ :=
  exceptD 0 <| do
    let (_, std) ← img.grayMeanStd
    if std < 1 / 1000000 then pure 0 else img.graySkewRaw

/-- `_extreme_pixel_ratios` (dark_t=30, bright_t=225): fractions of very dark
and very bright grayscale pixels; `(0.0, 0.0)` for an empty array. -/
def extreme_pixel_ratios (img : PyImage) : ℚ × ℚ :=
  exceptD (0, 0) <| do
    let arr ← img.grayPixels
    let total := arr.length
    if total = 0 then pure (0, 0)
    else
      pure ((((arr.filter fun p => decide (p < 30)).length : ℕ) : ℚ) / (total : ℚ),
        (((arr.filter fun p => decide (225 < p)).length : ℕ) : ℚ) / (total : ℚ))

/-- `_blockiness_score`: boundary-minus-interior mean luma discontinuity on
the 8×8 JPEG grid, normalized by 255 and clamped to `[0,1]`; `0.0` when the
luma array is smaller than 16×16. -/
def blockiness_score (img : PyImage) : ℚ :=
  exceptD 0 <| do
    let (h, w) ← img.yShape
    if h < 16 ∨ w < 16 then pure 0
    else if ¬ 7 < w - 1 then pure 0  -- `if not v_idxs: return 0.0`
    else do
      let vMean ← img.vBoundaryMean
      let hMean ← if 7 < h - 1 then img.hBoundaryMean else pure 0
      let interiorV ← if 2 < w then img.interiorVMean else pure 0
      let interiorH ← if 2 < h then img.interiorHMean else pure 0
      let boundary := (vMean + hMean) / 2
      let interior := (interiorV + interiorH) / 2
      pure <| min 1 (max 0 (boundary - interior) / 255)

/-- `_chroma_luma_ratio`: chroma std over luma std; `0.0` when the luma std
is at most `1e-6`. -/
def chroma_luma_ratio (img : PyImage) : ℚ :=
  exceptD 0 <| do
    let (yStd, cStd) ← img.ycStds
    if yStd ≤ 1 / 1000000 then pure 0 else pure (cStd / yStd)

/-- `_extract_metadata_text`: `"key: value"` lines from `img.info` and the
decoded EXIF tags (the latter skipped when `getexif` raises), joined by
newlines, plus the metadata dict. -/
def extract_metadata_text (img : PyImage) : String × List (String × String) :=
  let step := fun (acc : List String × List (String × String)) (kv : String × String) =>
    (acc.1 ++ [kv.1 ++ ": " ++ kv.2], dictUpd acc.2 kv.1 kv.2)
  let acc1 := img.info.foldl step ([], [])
  let acc2 :=
    match img.exifTags with
    | .error _ => acc1
    | .ok tags => tags.foldl step acc1
  (String.intercalate "\n" acc2.1, acc2.2)

/-- `_ocr_text`: the recognized text, or `""` on any failure (including a
missing OCR backend). -/
def ocr_text (img : PyImage) : String :=
  exceptD "" img.ocrBody

/-! ## Scoring engine -/

/-- `score = max(0.0, min(0.98, score))`. -/
def clampQ (x : ℚ) : ℚ := max 0 (min (98 / 100) x)

/-- `"synthetic" if score > 0.7 else "authentic"` — used verbatim by every
scoring branch. -/
def verdictOf (score : ℚ) : String := if 7 / 10 < score then "synthetic" else "authentic"

/-- `base` plus all recorded deltas of a breakdown. -/
def sumDeltas (bd : List (String × ℚ)) : ℚ := (bd.map Prod.snd).sum

/-- One conditional scoring rule: `if cond: score += delta;
score_breakdown[name] = delta` acting on the running (score, breakdown)
state. -/
def applyRule (cond : Prop) [Decidable cond] (name : String) (delta : ℚ)
    (st : ℚ × List (String × ℚ)) : ℚ × List (String × ℚ) :=
  if cond then (st.1 + delta, st.2 ++ [(name, delta)]) else st

/-- The extractor outputs the image scoring rules read. -/
structure ImageSignals where
  metaHits : List String
  ocrHits : List String
  entropy : ℚ
  edgeDensity : ℚ
  elaMean : ℚ
  colorUniqueRatio : ℚ
  exifComplete : Bool
  exifMissing : List String
  lapVar : ℚ
  flatRatio : ℚ
  blockiness : ℚ
  deriving DecidableEq

/-- The image scorer: base `0.45` then the ten conditional bumps, applied in
source order, accumulating the score and the breakdown together. -/
def imageScoreState (s : ImageSignals) : ℚ × List (String × ℚ) :=
  applyRule (s.blockiness < 2 / 100 ∧ s.edgeDensity < 8 / 100 ∧ s.lapVar < 15 ∧
      s.exifComplete = false) "very_smooth_low_blockiness" (1 / 100) <|
  applyRule (s.flatRatio > 6 / 10 ∧ s.entropy < 6) "flat_blocks" (3 / 100) <|
  applyRule (s.lapVar < 15 ∧ s.edgeDensity < 8 / 100) "low_laplacian" (2 / 100) <|
  applyRule (s.exifComplete = false ∧ s.exifMissing ≠ []) "missing_exif" (4 / 100) <|
  applyRule (s.colorUniqueRatio < 2 / 100) "low_color_uniqueness" (4 / 100) <|
  applyRule (s.elaMean < 3) "low_ela_mean" (3 / 100) <|
  applyRule (s.edgeDensity < 8 / 100 ∧ s.entropy < 6) "low_edge_density" (4 / 100) <|
  applyRule (s.entropy < 55 / 10) "low_entropy" (5 / 100) <|
  applyRule (s.ocrHits ≠ []) "ocr_hits" (25 / 100) <|
  applyRule (s.metaHits ≠ []) "metadata_hits" (35 / 100)
    (45 / 100, [("base", 45 / 100)])

/-- Output of `_text_features` (both the PDF and the plain-text variant; the
PDF variant does not produce the digit/punctuation ratios, which no rule
reads).  The numeric values are oracle inputs of the embedding — the rules
only compare them against fixed thresholds. -/
structure TextFeatures where
  ttr : ℚ
  avg_sentence_len : ℚ
  repetition_top5_share : ℚ
  stopword_ratio : ℚ
  digit_ratio : ℚ
  punct_ratio : ℚ
  word_count : ℚ
  char_count : ℚ
  deriving DecidableEq

/-- The PDF / plain-text scorer: base `0.45`, the keyword rule (named
`"ocr_hits"` for PDF, `"keyword_hits"` for plain text), then the two
stylometric rules guarded by `if text_feats:`. -/
def textScoreState (ruleName : String) (hits : List String)
    (feats : Option TextFeatures) : ℚ × List (String × ℚ) :=
  let st := applyRule (hits ≠ []) ruleName (25 / 100) (45 / 100, [("base", 45 / 100)])
  match feats with
  | none => st
  | some f =>
    applyRule (12 ≤ f.avg_sentence_len ∧ f.avg_sentence_len ≤ 28)
        "avg_sentence_len_mid" (1 / 100) <|
    applyRule (f.repetition_top5_share > 25 / 100 ∧ f.ttr < 45 / 100)
        "high_repetition_low_ttr" (6 / 100) st

/-! ## Result records -/

/-- The `details` mapping of the image branch (`megapixels`, which only
rounds `width*height/1e6` to three decimals, is represented by that exact
rational). -/
structure ImageDetails where
  meta_hits : List String
  ocr_hits : List String
  ocr_preview : String
  ocr_full : String
  entropy : ℚ
  width : ℕ
  height : ℕ
  mode : String
  formatStr : String
  edge_density : ℚ
  ela_mean : ℚ
  color_unique_ratio : ℚ
  exif_missing : List String
  laplacian_var : ℚ
  flat_block_ratio : ℚ
  jpeg_qtables_present : Bool
  blockiness_score : ℚ
  chroma_luma_ratio : ℚ
  score_breakdown : List (String × ℚ)
  final_score : ℚ
  brightness_mean : ℚ
  brightness_std : ℚ
  saturation_mean : ℚ
  saturation_std : ℚ
  gray_skewness : ℚ
  dark_ratio : ℚ
  bright_ratio : ℚ
  aspect_ratio : ℚ
  megapixels : ℚ
  meta_field_count : ℕ
  meta : List (String × String)
  deriving DecidableEq

/-- The `details` mapping of the PDF and plain-text branches. -/
structure TextDetails where
  ocr_hits : List String
  ocr_preview : String
  ocr_full : String
  text_features : Option TextFeatures
  score_breakdown : List (String × ℚ)
  final_score : ℚ
  deriving DecidableEq

/-- A result's optional `details` value. -/
inductive Details where
  | image (d : ImageDetails)
  | text (d : TextDetails)
  deriving DecidableEq

/-- `details["score_breakdown"]`. -/
def Details.breakdown : Details → List (String × ℚ)
  | .image d => d.score_breakdown
  | .text d => d.score_breakdown

/-- `details["final_score"]`. -/
def Details.finalScore : Details → ℚ
  | .image d => d.final_score
  | .text d => d.final_score

/-- The record every branch of `analyze_image` returns. -/
structure AnalysisResult where
  score : ℚ
  verdict : String
  reason : String
  details : Option Details := none
  deriving DecidableEq

/-! ## Explainer helpers -/

/-- Round a rational to an integer, ties to even (the rounding convention of
Python's float formatting and `round`, here applied to the exact rational). -/
def roundHalfEven (q : ℚ) : ℤ :=
  let f := ⌊q⌋
  let r := q - (f : ℚ)
  if r < 1 / 2 then f
  else if 1 / 2 < r then f + 1
  else if f % 2 = 0 then f else f + 1

/-- Zero-pad a digit string on the left to length `n`. -/
def padZeros (s : String) (n : ℕ) : String :=
  ⟨List.replicate (n - s.length) '0' ++ s.data⟩

/-- Fixed-point decimal rendering with `prec` digits, modelling the
`f"{x:.2f}"`-style interpolations of the rationale strings. -/
def fmtFixed (prec : ℕ) (q : ℚ) : String :=
  let scaled := roundHalfEven (q * ((10 ^ prec : ℕ) : ℚ))
  let a := scaled.natAbs
  let ip := a / 10 ^ prec
  let fp := a % 10 ^ prec
  (if scaled < 0 then "-" else "") ++ toString ip ++
    (if prec = 0 then "" else "." ++ padZeros (toString fp) prec)

/-- `", ".join(sorted(set(hits)))`. -/
def joinSortedSet (hits : List String) : String :=
  String.intercalate ", " (hits.eraseDups.mergeSort fun a b => decide (a ≤ b))

/-- `(t[:300] + ("…" if len(t) > 300 else "")) if t else ""`. -/
def previewOf (t : String) : String :=
  if t ≠ "" then t.take 300 ++ (if 300 < t.length then "…" else "") else ""

/-- `round(width*height/1e6, 3)` as an exact rational. -/
def megapixelsOf (w h : ℕ) : ℚ :=
  (roundHalfEven (((w * h : ℕ) : ℚ) / 1000000 * 1000) : ℤ) / 1000

/-! ## The four pipelines -/

/-- The extractor outputs feeding the image scorer, as computed by the
success path of the image branch. -/
def imageSignalsOf (log2 : ℚ → ℚ) (img : PyImage) : ImageSignals where
  metaHits := find_hits (extract_metadata_text img).1
  ocrHits := find_hits (ocr_text img)
  entropy := shannon_entropy log2 img
  edgeDensity := edge_density img
  elaMean := ela_mean img
  colorUniqueRatio := color_unique_ratio img
  exifComplete := (exif_missing img).1
  exifMissing := (exif_missing img).2
  lapVar := laplacian_variance img
  flatRatio := flat_block_ratio img
  blockiness := blockiness_score img

/-- The success path of the image branch: extract all signals, fold the
scoring rules, clamp, derive the verdict, and build rationale and details. -/
def analyzeDecodedImage (log2 : ℚ → ℚ) (img : PyImage) : AnalysisResult :=
  let metaMap := (extract_metadata_text img).2
  let ocr := ocr_text img
  let sig := imageSignalsOf log2 img
  let edgeHint : String :=
    if 7 < sig.entropy then "high" else if 6 < sig.entropy then "medium" else "low"
  let chromaLuma := chroma_luma_ratio img
  let bMean := (brightness_stats img).1
  let bStd := (brightness_stats img).2
  let sMean := (saturation_stats img).1
  let sStd := (saturation_stats img).2
  let graySkew := gray_skewness img
  let darkRatio := (extreme_pixel_ratios img).1
  let brightRatio := (extreme_pixel_ratios img).2
  let st := imageScoreState sig
  let score := clampQ st.1
  let reasons : List String :=
    ["Examined " ++ toString img.width ++ "x" ++ toString img.height ++ " image in " ++
        img.mode ++ " mode.",
      "Signal entropy: " ++ fmtFixed 2 sig.entropy ++ " (" ++ edgeHint ++ ")."]
    ++ (if sig.metaHits ≠ [] then
          ["Metadata indicators found: " ++ joinSortedSet sig.metaHits ++ "."]
        else ["No explicit AI markers in EXIF or PNG text."])
    ++ (if sig.ocrHits ≠ [] then
          ["OCR detected AI-related terms: " ++ joinSortedSet sig.ocrHits ++ "."]
        else if ocr ≠ "" then ["OCR text present but no AI-specific keywords matched."]
        else ["No visible text detected via OCR."])
    ++ ["Edge density: " ++ fmtFixed 3 sig.edgeDensity ++ ". ELA mean: " ++
          fmtFixed 2 sig.elaMean ++ ". Unique color ratio: " ++
          fmtFixed 3 sig.colorUniqueRatio ++ "."]
    ++ ["Laplacian variance: " ++ fmtFixed 2 sig.lapVar ++ ". Flat-block ratio: " ++
          fmtFixed 2 sig.flatRatio ++ "."]
    ++ ["Brightness μ/σ: " ++ fmtFixed 1 bMean ++ "/" ++ fmtFixed 1 bStd ++
          ". Saturation μ/σ: " ++ fmtFixed 1 sMean ++ "/" ++ fmtFixed 1 sStd ++
          ". Skewness: " ++ fmtFixed 2 graySkew ++ ". Dark " ++
          fmtFixed 1 (darkRatio * 100) ++ "%, Bright " ++
          fmtFixed 1 (brightRatio * 100) ++ "%."]
    ++ (if sig.exifComplete = false then
          (if sig.exifMissing ≠ [] then
            ["Missing common EXIF fields: " ++ String.intercalate ", " sig.exifMissing ++ "."]
          else [])
        else [])
  { score := score
    verdict := verdictOf score
    reason := String.intercalate " " reasons
    details := some (.image
      { meta_hits := sig.metaHits
        ocr_hits := sig.ocrHits
        ocr_preview := previewOf ocr
        ocr_full := ocr
        entropy := sig.entropy
        width := img.width
        height := img.height
        mode := img.mode
        formatStr := img.formatStr
        edge_density := sig.edgeDensity
        ela_mean := sig.elaMean
        color_unique_ratio := sig.colorUniqueRatio
        exif_missing := sig.exifMissing
        laplacian_var := sig.lapVar
        flat_block_ratio := sig.flatRatio
        jpeg_qtables_present := img.quantizationPresent
        blockiness_score := sig.blockiness
        chroma_luma_ratio := chromaLuma
        score_breakdown := st.2
        final_score := score
        brightness_mean := bMean
        brightness_std := bStd
        saturation_mean := sMean
        saturation_std := sStd
        gray_skewness := graySkew
        dark_ratio := darkRatio
        bright_ratio := brightRatio
        aspect_ratio := if img.height ≠ 0 then (img.width : ℚ) / (img.height : ℚ) else 0
        megapixels := megapixelsOf img.width img.height
        meta_field_count := metaMap.length
        meta := metaMap.map fun p => (p.1, p.2.take 200) }) }

/-- The PDF branch, given the text pdfminer extracted (`""` when extraction
failed or produced nothing) and the stylometric features `_text_features`
computes from a nonempty text. -/
def analyzePdf (text : String) (feats : TextFeatures) : AnalysisResult :=
  let ocrHits := if text ≠ "" then find_hits text else []
  let featsOpt := if text ≠ "" then some feats else none
  let st := textScoreState "ocr_hits" ocrHits featsOpt
  let score := clampQ st.1
  let reasonBits : List String :=
    ["PDF analyzed."]
    ++ (if ocrHits ≠ [] then
          ["Detected AI-related terms in text: " ++ joinSortedSet ocrHits ++ "."]
        else if text ≠ "" then ["Text extracted but no AI-specific keywords matched."]
        else ["No text could be extracted from the PDF."])
  { score := score
    verdict := verdictOf score
    reason := String.intercalate " " reasonBits
    details := some (.text
      { ocr_hits := ocrHits
        ocr_preview := previewOf text
        ocr_full := text
        text_features := featsOpt
        score_breakdown := st.2
        final_score := score }) }

/-- The plain-text branch, given the UTF-8 decode of the payload (with
undecodable bytes dropped, so decoding itself cannot fail) and the
stylometric features of a nonempty text. -/
def analyzeTxt (text : String) (feats : TextFeatures) : AnalysisResult :=
  let hits := if text ≠ "" then find_hits text else []
  let featsOpt := if text ≠ "" then some feats else none
  let st := textScoreState "keyword_hits" hits featsOpt
  let score := clampQ st.1
  let reasonBits : List String :=
    ["Plain text analyzed."]
    ++ (if hits ≠ [] then ["Detected AI-related terms: " ++ joinSortedSet hits ++ "."]
        else [])
  { score := score
    verdict := verdictOf score
    reason := String.intercalate " " reasonBits
    details := some (.text
      { ocr_hits := hits
        ocr_preview := previewOf text
        ocr_full := text
        text_features := featsOpt
        score_breakdown := st.2
        final_score := score }) }

/-- A mock branch (doc/docx, ppt/pptx, unknown extensions): a uniform-random
score, the threshold verdict, a static reason, no details. -/
def mockResult (score : ℚ) (reason : String) : AnalysisResult :=
  { score := score, verdict := verdictOf score, reason := reason }

/-! ## Dispatcher -/

/-- The handling branches of `analyze_image`, in source order. -/
inductive Branch where
  | image
  | pdf
  | txt
  | document
  | presentation
  | generic
  deriving DecidableEq

/-- The extension groups of the `if` chain of `analyze_image`. -/
def branchOf (ext : String) : Branch :=
  if ext ∈ ["png", "jpg", "jpeg", "gif", "bmp", "webp", "heic", "heif"] then .image
  else if ext = "pdf" then .pdf
  else if ext ∈ ["txt"] then .txt
  else if ext ∈ ["doc", "docx"] then .document
  else if ext ∈ ["ppt", "pptx"] then .presentation
  else .generic

/-- Everything `analyze_image` obtains from the outside world for one call:
whether Pillow imported, the decoded image (`none` when `Image.open` — or
anything else inside the image `try` block — raised, with the exception's
message), the `random.uniform` draw of each fallback call site, the PDF
text extraction and the UTF-8 decode of the payload, and the stylometric
features of those texts. -/
structure Env where
  pillowAvailable : Bool
  decode : Option PyImage
  decodeErrMsg : String
  /-- `random.uniform(0.4, 0.9)` in the image decode-failure fallback. -/
  randImage : ℚ
  pdfText : String
  pdfFeats : TextFeatures
  txtText : String
  txtFeats : TextFeatures
  /-- `random.uniform(0.3, 0.95)` in the doc/docx mock. -/
  randDoc : ℚ
  /-- `random.uniform(0.3, 0.95)` in the ppt/pptx mock. -/
  randPpt : ℚ
  /-- `random.uniform(0.4, 0.9)` in the unknown-extension mock. -/
  randGeneric : ℚ

/-- `analyze_image(data, filename)`: dispatch on the lowercased trailing
extension and run the selected pipeline. -/
def analyze_image (log2 : ℚ → ℚ) (filename : String) (env : Env) : AnalysisResult :=
  match branchOf (fileExt filename) with
  | .image =>
    if env.pillowAvailable then
      match env.decode with
      | some img => analyzeDecodedImage log2 img
      | none =>
        { score := env.randImage
          verdict := verdictOf env.randImage
          reason := "Image could not be decoded; provided generic analysis. Error: " ++
            env.decodeErrMsg }
    else
      { score := 0, verdict := "error",
        reason := "Image analysis unavailable: Pillow not installed" }
  | .pdf => analyzePdf env.pdfText env.pdfFeats
  | .txt => analyzeTxt env.txtText env.txtFeats
  | .document => mockResult env.randDoc "Document analyzed (mock). Linguistic patterns assessed."
  | .presentation =>
    mockResult env.randPpt "Presentation analyzed (mock). Structure and content assessed."
  | .generic => mockResult env.randGeneric "Generic file analyzed (mock)."

/-! ## Basic lemmas about the scoring engine -/

theorem sumDeltas_append (bd : List (String × ℚ)) (p : String × ℚ) :
    sumDeltas (bd ++ [p]) = sumDeltas bd + p.2 := by
  simp [sumDeltas]

theorem applyRule_sum (cond : Prop) [Decidable cond] (name : String) (delta : ℚ)
    (st : ℚ × List (String × ℚ)) (h : st.1 = sumDeltas st.2) :
    (applyRule cond name delta st).1 = sumDeltas (applyRule cond name delta st).2 := by
  unfold applyRule
  split
  · simp [sumDeltas_append, h]
  · exact h

/-- The image scorer keeps its running score equal to `base` plus the
recorded deltas. -/
theorem imageScoreState_sum (s : ImageSignals) :
    (imageScoreState s).1 = sumDeltas (imageScoreState s).2 := by
  unfold imageScoreState
  refine applyRule_sum _ _ _ _ ?_
  refine applyRule_sum _ _ _ _ ?_
  refine applyRule_sum _ _ _ _ ?_
  refine applyRule_sum _ _ _ _ ?_
  refine applyRule_sum _ _ _ _ ?_
  refine applyRule_sum _ _ _ _ ?_
  refine applyRule_sum _ _ _ _ ?_
  refine applyRule_sum _ _ _ _ ?_
  refine applyRule_sum _ _ _ _ ?_
  refine applyRule_sum _ _ _ _ ?_
  simp [sumDeltas]

/-- Same invariant for the PDF / plain-text scorer. -/
theorem textScoreState_sum (ruleName : String) (hits : List String)
    (feats : Option TextFeatures) :
    (textScoreState ruleName hits feats).1 = sumDeltas (textScoreState ruleName hits feats).2 := by
  unfold textScoreState
  have hbase : (applyRule (hits ≠ []) ruleName (25 / 100)
      (45 / 100, [("base", 45 / 100)])).1 =
      sumDeltas (applyRule (hits ≠ []) ruleName (25 / 100)
      (45 / 100, [("base", 45 / 100)])).2 := by
    refine applyRule_sum _ _ _ _ ?_
    simp [sumDeltas]
  match feats with
  | none => exact hbase
  | some f =>
    refine applyRule_sum _ _ _ _ ?_
    exact applyRule_sum _ _ _ _ hbase

theorem verdictOf_synthetic (q : ℚ) : verdictOf q = "synthetic" ↔ 7 / 10 < q := by
  unfold verdictOf
  split <;> rename_i h
  · exact iff_of_true rfl h
  · exact iff_of_false (fun e => absurd e (by decide)) h

theorem verdictOf_authentic (q : ℚ) : verdictOf q = "authentic" ↔ q ≤ 7 / 10 := by
  unfold verdictOf
  split <;> rename_i h
  · exact iff_of_false (fun e => absurd e (by decide)) (not_le.mpr h)
  · exact iff_of_true rfl (le_of_not_lt h)

theorem verdictOf_cases (q : ℚ) : verdictOf q = "synthetic" ∨ verdictOf q = "authentic" := by
  unfold verdictOf
  split
  · exact Or.inl rfl
  · exact Or.inr rfl

theorem clampQ_of_bounds {x : ℚ} (h0 : 0 ≤ x) (h1 : x ≤ 98 / 100) : clampQ x = x := by
  unfold clampQ
  rw [min_eq_right h1, max_eq_right h0]

/-- Membership in an `applyRule` breakdown. -/
theorem mem_applyRule_snd {p : String × ℚ} (cond : Prop) [Decidable cond]
    (name : String) (delta : ℚ) (st : ℚ × List (String × ℚ)) :
    p ∈ (applyRule cond name delta st).2 ↔ p ∈ st.2 ∨ (cond ∧ p = (name, delta)) := by
  unfold applyRule
  split <;> rename_i h
  · simp [h]
  · simp [h]

/-! ## Shape lemmas for the pipeline results -/

/-- A result whose verdict is the threshold verdict of its own score. -/
def GoodVerdict (r : AnalysisResult) : Prop := r.verdict = verdictOf r.score

theorem analyzeDecodedImage_score (log2 : ℚ → ℚ) (img : PyImage) :
    (analyzeDecodedImage log2 img).score =
      clampQ (imageScoreState (imageSignalsOf log2 img)).1 := rfl

theorem analyzeDecodedImage_goodVerdict (log2 : ℚ → ℚ) (img : PyImage) :
    GoodVerdict (analyzeDecodedImage log2 img) := rfl

theorem analyzeDecodedImage_details (log2 : ℚ → ℚ) (img : PyImage) :
    ∃ di : ImageDetails, (analyzeDecodedImage log2 img).details = some (.image di) ∧
      di.score_breakdown = (imageScoreState (imageSignalsOf log2 img)).2 ∧
      di.final_score = (analyzeDecodedImage log2 img).score :=
  ⟨_, rfl, rfl, rfl⟩

theorem analyzePdf_score (text : String) (feats : TextFeatures) :
    (analyzePdf text feats).score =
      clampQ (textScoreState "ocr_hits" (if text ≠ "" then find_hits text else [])
        (if text ≠ "" then some feats else none)).1 := rfl

theorem analyzePdf_goodVerdict (text : String) (feats : TextFeatures) :
    GoodVerdict (analyzePdf text feats) := rfl

theorem analyzePdf_details (text : String) (feats : TextFeatures) :
    ∃ dt : TextDetails, (analyzePdf text feats).details = some (.text dt) ∧
      dt.score_breakdown = (textScoreState "ocr_hits" (if text ≠ "" then find_hits text else [])
        (if text ≠ "" then some feats else none)).2 ∧
      dt.final_score = (analyzePdf text feats).score :=
  ⟨_, rfl, rfl, rfl⟩

theorem analyzeTxt_score (text : String) (feats : TextFeatures) :
    (analyzeTxt text feats).score =
      clampQ (textScoreState "keyword_hits" (if text ≠ "" then find_hits text else [])
        (if text ≠ "" then some feats else none)).1 := rfl

theorem analyzeTxt_goodVerdict (text : String) (feats : TextFeatures) :
    GoodVerdict (analyzeTxt text feats) := rfl

theorem analyzeTxt_details (text : String) (feats : TextFeatures) :
    ∃ dt : TextDetails, (analyzeTxt text feats).details = some (.text dt) ∧
      dt.score_breakdown = (textScoreState "keyword_hits"
        (if text ≠ "" then find_hits text else [])
        (if text ≠ "" then some feats else none)).2 ∧
      dt.final_score = (analyzeTxt text feats).score :=
  ⟨_, rfl, rfl, rfl⟩

theorem mockResult_shape (score : ℚ) (reason : String) :
    GoodVerdict (mockResult score reason) ∧ (mockResult score reason).details = none :=
  ⟨rfl, rfl⟩

theorem analyze_image_pdf (log2 : ℚ → ℚ) (fn : String) (env : Env)
    (h : branchOf (fileExt fn) = .pdf) :
    analyze_image log2 fn env = analyzePdf env.pdfText env.pdfFeats := by
  unfold analyze_image
  rw [h]

theorem analyze_image_txt (log2 : ℚ → ℚ) (fn : String) (env : Env)
    (h : branchOf (fileExt fn) = .txt) :
    analyze_image log2 fn env = analyzeTxt env.txtText env.txtFeats := by
  unfold analyze_image
  rw [h]

theorem analyze_image_document (log2 : ℚ → ℚ) (fn : String) (env : Env)
    (h : branchOf (fileExt fn) = .document) :
    analyze_image log2 fn env =
      mockResult env.randDoc "Document analyzed (mock). Linguistic patterns assessed." := by
  unfold analyze_image
  rw [h]

theorem analyze_image_presentation (log2 : ℚ → ℚ) (fn : String) (env : Env)
    (h : branchOf (fileExt fn) = .presentation) :
    analyze_image log2 fn env =
      mockResult env.randPpt "Presentation analyzed (mock). Structure and content assessed." := by
  unfold analyze_image
  rw [h]

theorem analyze_image_generic (log2 : ℚ → ℚ) (fn : String) (env : Env)
    (h : branchOf (fileExt fn) = .generic) :
    analyze_image log2 fn env = mockResult env.randGeneric "Generic file analyzed (mock)." := by
  unfold analyze_image
  rw [h]

/-- The image branch returns in exactly one of three shapes: the Pillow-missing
error record, the decode-failure random fallback, or the scored result of a
successfully decoded image. -/
theorem analyze_image_raster_cases (log2 : ℚ → ℚ) (fn : String) (env : Env)
    (h : branchOf (fileExt fn) = .image) :
    (env.pillowAvailable = false ∧ analyze_image log2 fn env =
      { score := 0, verdict := "error",
        reason := "Image analysis unavailable: Pillow not installed" }) ∨
    (env.pillowAvailable = true ∧ env.decode = none ∧ analyze_image log2 fn env =
      { score := env.randImage
        verdict := verdictOf env.randImage
        reason := "Image could not be decoded; provided generic analysis. Error: " ++
          env.decodeErrMsg }) ∨
    (∃ img, env.pillowAvailable = true ∧ env.decode = some img ∧
      analyze_image log2 fn env = analyzeDecodedImage log2 img) := by
  unfold analyze_image
  rw [h]
  cases hp : env.pillowAvailable with
  | false => simp
  | true =>
    cases hd : env.decode with
    | none => simp
    | some img =>
      right
      right
      exact ⟨img, rfl, rfl, rfl⟩

/-! ## Concrete instances used by witnesses and counterexamples -/

/-- A concrete stand-in for the abstract `math.log2` oracle. -/
def log2c : ℚ → ℚ := fun _ => 0

/-- All-zero stylometric features. -/
def feats0 : TextFeatures := ⟨0, 0, 0, 0, 0, 0, 0, 0⟩

/-- A concrete decoded image carrying no EXIF data at all (`getexif` returns
a falsy, empty mapping) and no metadata text. -/
def imgNoExif : PyImage where
  width := 10
  height := 10
  mode := "RGB"
  formatStr := "PNG"
  info := []
  quantizationPresent := false
  exifTags := .ok []
  ocrBody := .ok ""
  grayHistogram := .ok []
  edgesMean := .ok 25
  elaChannelMeans := .ok [5]
  colorCounts := .ok none
  grayShape := .ok (10, 10)
  lapConvVar := .ok 20
  smallShape := .ok (10, 10)
  blockVars := .ok []
  grayMeanStd := .ok (128, 10)
  satMeanStd := .ok (50, 5)
  graySkewRaw := .ok 0
  grayPixels := .ok [100, 150]
  yShape := .ok (10, 10)
  vBoundaryMean := .ok 0
  hBoundaryMean := .ok 0
  interiorVMean := .ok 0
  interiorHMean := .ok 0
  ycStds := .ok (10, 5)

/-- An environment whose image decode failed and whose text payloads are
empty. -/
def envTxtEmpty : Env where
  pillowAvailable := true
  decode := none
  decodeErrMsg := "cannot identify image file"
  randImage := 1 / 2
  pdfText := ""
  pdfFeats := feats0
  txtText := ""
  txtFeats := feats0
  randDoc := 1 / 2
  randPpt := 1 / 2
  randGeneric := 1 / 2

/-- The details value the plain-text branch produces for an empty payload. -/
def dTxtEmpty : Details := .text ⟨[], "", "", none, [("base", 45 / 100)], 45 / 100⟩

/-! ## C1 -/

/-- C1: for every result of the image, PDF and plain-text pipelines that
carries a score breakdown, the base value plus the sum of all applied rule
deltas recorded in the breakdown, clamped to `[0, 0.98]`, equals the
returned score exactly, for every combination of rules that fire. -/
theorem c1_breakdown_reproduces_score (log2 : ℚ → ℚ) (fn : String) (env : Env)
    (d : Details) (h : (analyze_image log2 fn env).details = some d) :
    clampQ (sumDeltas d.breakdown) = (analyze_image log2 fn env).score := by
  cases hb : branchOf (fileExt fn) with
  | image =>
    rcases analyze_image_raster_cases log2 fn env hb with
      ⟨_, he⟩ | ⟨_, _, he⟩ | ⟨img, _, _, he⟩
    · rw [he] at h
      exact Option.noConfusion h
    · rw [he] at h
      exact Option.noConfusion h
    · rw [he] at h ⊢
      obtain ⟨di, hd, hbd, hfs⟩ := analyzeDecodedImage_details log2 img
      rw [hd] at h
      injection h with h
      subst h
      show clampQ (sumDeltas di.score_breakdown) = _
      rw [hbd, ← imageScoreState_sum, analyzeDecodedImage_score]
  | pdf =>
    rw [analyze_image_pdf log2 fn env hb] at h ⊢
    obtain ⟨dt, hd, hbd, hfs⟩ := analyzePdf_details env.pdfText env.pdfFeats
    rw [hd] at h
    injection h with h
    subst h
    show clampQ (sumDeltas dt.score_breakdown) = _
    rw [hbd, ← textScoreState_sum, analyzePdf_score]
  | txt =>
    rw [analyze_image_txt log2 fn env hb] at h ⊢
    obtain ⟨dt, hd, hbd, hfs⟩ := analyzeTxt_details env.txtText env.txtFeats
    rw [hd] at h
    injection h with h
    subst h
    show clampQ (sumDeltas dt.score_breakdown) = _
    rw [hbd, ← textScoreState_sum, analyzeTxt_score]
  | document =>
    rw [analyze_image_document log2 fn env hb] at h
    exact Option.noConfusion h
  | presentation =>
    rw [analyze_image_presentation log2 fn env hb] at h
    exact Option.noConfusion h
  | generic =>
    rw [analyze_image_generic log2 fn env hb] at h
    exact Option.noConfusion h

unseal Rat.mul Rat.inv Rat.add Rat.sub in
theorem c1_witness :
    (analyze_image log2c "notes.txt" envTxtEmpty).details = some dTxtEmpty ∧
    clampQ (sumDeltas dTxtEmpty.breakdown) = (analyze_image log2c "notes.txt" envTxtEmpty).score :=
  ⟨by decide,
   c1_breakdown_reproduces_score log2c "notes.txt" envTxtEmpty dTxtEmpty (by decide)⟩

/-! ## C2 -/

unseal Rat.mul Rat.inv Rat.add Rat.sub in
theorem goodVerdict_threshold {r : AnalysisResult} (h : GoodVerdict r) :
    (r.verdict = "synthetic" ↔ 7 / 10 < r.score) ∧
      (r.score = 7 / 10 → r.verdict = "authentic") := by
  rw [GoodVerdict] at h
  rw [h]
  refine ⟨verdictOf_synthetic _, fun hs => ?_⟩
  rw [hs]
  decide

/-- C2: every result of a scoring pipeline (image, PDF, plain-text and the
generic/mock branches — i.e. every result except the Pillow-missing error
record) has verdict `"synthetic"` iff its score is strictly greater than
`0.70`; in particular a score of exactly `0.70` yields `"authentic"`. -/
theorem c2_verdict_threshold (log2 : ℚ → ℚ) (fn : String) (env : Env) :
    (analyze_image log2 fn env).verdict = "error" ∨
      (((analyze_image log2 fn env).verdict = "synthetic" ↔
          7 / 10 < (analyze_image log2 fn env).score) ∧
        ((analyze_image log2 fn env).score = 7 / 10 →
          (analyze_image log2 fn env).verdict = "authentic")) := by
  cases hb : branchOf (fileExt fn) with
  | image =>
    rcases analyze_image_raster_cases log2 fn env hb with
      ⟨_, he⟩ | ⟨_, _, he⟩ | ⟨img, _, _, he⟩
    · rw [he]
      exact Or.inl rfl
    · rw [he]
      exact Or.inr (goodVerdict_threshold rfl)
    · rw [he]
      exact Or.inr (goodVerdict_threshold (analyzeDecodedImage_goodVerdict log2 img))
  | pdf =>
    rw [analyze_image_pdf log2 fn env hb]
    exact Or.inr (goodVerdict_threshold (analyzePdf_goodVerdict _ _))
  | txt =>
    rw [analyze_image_txt log2 fn env hb]
    exact Or.inr (goodVerdict_threshold (analyzeTxt_goodVerdict _ _))
  | document =>
    rw [analyze_image_document log2 fn env hb]
    exact Or.inr (goodVerdict_threshold (mockResult_shape _ _).1)
  | presentation =>
    rw [analyze_image_presentation log2 fn env hb]
    exact Or.inr (goodVerdict_threshold (mockResult_shape _ _).1)
  | generic =>
    rw [analyze_image_generic log2 fn env hb]
    exact Or.inr (goodVerdict_threshold (mockResult_shape _ _).1)

/-! ## C3 -/

/-- C3: for every payload and raster-extension filename, `analyze_image`
never raises (it is a total function here) and converts every decode
failure either into the explicit error-verdict result with score `0` and a
descriptive reason, or into the generic random-score fallback whose reason
notes the decode failure. -/
theorem c3_decode_failure_handled (log2 : ℚ → ℚ) (fn : String) (env : Env)
    (h : branchOf (fileExt fn) = .image)
    (hfail : env.pillowAvailable = false ∨ env.decode = none) :
    ((analyze_image log2 fn env).verdict = "error" ∧ (analyze_image log2 fn env).score = 0 ∧
      (analyze_image log2 fn env).reason = "Image analysis unavailable: Pillow not installed") ∨
    ((analyze_image log2 fn env).score = env.randImage ∧
      (analyze_image log2 fn env).verdict = verdictOf env.randImage ∧
      (analyze_image log2 fn env).reason =
        "Image could not be decoded; provided generic analysis. Error: " ++ env.decodeErrMsg) := by
  rcases analyze_image_raster_cases log2 fn env h with
    ⟨_, he⟩ | ⟨_, _, he⟩ | ⟨img, hp, hd, he⟩
  · rw [he]
    exact Or.inl ⟨rfl, rfl, rfl⟩
  · rw [he]
    exact Or.inr ⟨rfl, rfl, rfl⟩
  · exfalso
    rcases hfail with hf | hf
    · rw [hp] at hf
      exact Bool.noConfusion hf
    · rw [hd] at hf
      exact Option.noConfusion hf

theorem c3_witness :
    ((analyze_image log2c "broken.heic" envTxtEmpty).verdict = "error" ∧
      (analyze_image log2c "broken.heic" envTxtEmpty).score = 0 ∧
      (analyze_image log2c "broken.heic" envTxtEmpty).reason =
        "Image analysis unavailable: Pillow not installed") ∨
    ((analyze_image log2c "broken.heic" envTxtEmpty).score = envTxtEmpty.randImage ∧
      (analyze_image log2c "broken.heic" envTxtEmpty).verdict = verdictOf envTxtEmpty.randImage ∧
      (analyze_image log2c "broken.heic" envTxtEmpty).reason =
        "Image could not be decoded; provided generic analysis. Error: " ++
          envTxtEmpty.decodeErrMsg) :=
  c3_decode_failure_handled log2c "broken.heic" envTxtEmpty (by decide) (Or.inr rfl)

/-! ## C4 -/

theorem applyRule_fst (cond : Prop) [Decidable cond] (name : String) (delta : ℚ)
    (st : ℚ × List (String × ℚ)) :
    (applyRule cond name delta st).1 = st.1 + (if cond then delta else 0) := by
  unfold applyRule
  split <;> simp

/-- C4 (amended): the counterexample `c4_counterexample` shows the claim is
false for an image with no EXIF data at all.  Amended statement: the
`missing_exif` rule fires — adding `+0.04` and recording the delta — exactly
when the EXIF check reports incompleteness with a nonempty missing-field
list, i.e. the image carries some EXIF data but a canonical field is absent
or blank; an image with no EXIF data at all never fires it. -/
theorem c4_missing_exif_rule (s : ImageSignals) :
    (("missing_exif", 4 / 100) ∈ (imageScoreState s).2 ↔
      s.exifComplete = false ∧ s.exifMissing ≠ []) ∧
    (s.exifComplete = false → s.exifMissing ≠ [] →
      (imageScoreState s).1 = (imageScoreState { s with exifMissing := [] }).1 + 4 / 100) := by
  constructor
  · simp only [imageScoreState, mem_applyRule_snd]
    simp [Prod.ext_iff]
  · intro hexif hmiss
    simp only [imageScoreState, applyRule_fst]
    have h1 : s.exifComplete = false ∧ s.exifMissing ≠ [] := ⟨hexif, hmiss⟩
    have h2 : ¬ (s.exifComplete = false ∧ ([] : List String) ≠ []) := fun hcon => hcon.2 rfl
    rw [if_pos h1, if_neg h2]
    ring

unseal Rat.mul Rat.inv Rat.add Rat.sub in
/-- C4 counterexample: `imgNoExif` carries no EXIF data, so its canonical
camera EXIF fields are certainly not all present, yet the `missing_exif`
rule does not fire: the breakdown of its scored run contains no
`missing_exif` entry (only `base`, `low_entropy`, `low_color_uniqueness`). -/
theorem c4_counterexample :
    (exif_missing imgNoExif).1 = false ∧
    (imageScoreState (imageSignalsOf log2c imgNoExif)).2 =
      [("base", 45 / 100), ("low_entropy", 5 / 100), ("low_color_uniqueness", 4 / 100)] := by
  constructor
  · rfl
  · decide

theorem c4_witness :
    ("missing_exif", 4 / 100) ∈
      (imageScoreState ⟨[], [], 6, 1, 5, 1, false, ["Make"], 20, 0, 1⟩).2 ∧
    (imageScoreState ⟨[], [], 6, 1, 5, 1, false, ["Make"], 20, 0, 1⟩).1 =
      (imageScoreState ⟨[], [], 6, 1, 5, 1, false, [], 20, 0, 1⟩).1 + 4 / 100 :=
  ⟨(c4_missing_exif_rule ⟨[], [], 6, 1, 5, 1, false, ["Make"], 20, 0, 1⟩).1.mpr
      ⟨rfl, by decide⟩,
   (c4_missing_exif_rule ⟨[], [], 6, 1, 5, 1, false, ["Make"], 20, 0, 1⟩).2 rfl (by decide)⟩

/-! ## C5 -/

/-- C5 counterexample: the filename `"png"` contains no `.`, yet it routes
to the image branch (its dispatch key is the whole lowercased filename,
`"png"`), not to the generic branch as claimed. -/
theorem c5_counterexample :
    ('.' ∉ "png".data) ∧ fileExt "png" = "png" ∧
      branchOf (fileExt "png") = Branch.image ∧ Branch.image ≠ Branch.generic := by
  refine ⟨by decide, by decide, by decide, by decide⟩

/-- C5 (amended): the dispatcher selects the branch purely from the
filename's lowercased trailing segment — the text after the last `.`, or
the *entire* lowercased filename when no `.` occurs (not the empty
string).  Filenames with equal keys route identically, `"photo.PNG"` and
`"photo.png"` agree, and `"archive.tar.gz"` routes by `"gz"` to the
generic branch. -/
theorem c5_dispatch_amended :
    (∀ f g : String, fileExt f = fileExt g →
      branchOf (fileExt f) = branchOf (fileExt g)) ∧
    fileExt "photo.PNG" = fileExt "photo.png" ∧
    fileExt "archive.tar.gz" = "gz" ∧ branchOf "gz" = Branch.generic ∧
    (∀ f : String, '.' ∉ f.data → fileExt f = pyLower f) := by
  refine ⟨fun f g h => by rw [h], by decide, by decide, by decide, fun f hf => ?_⟩
  have hnd : '.' ∉ (pyLower f).data := by
    intro hmem
    obtain ⟨c, hc, he⟩ := List.mem_map.mp hmem
    exact hf (pyLowerChar_eq_dot he ▸ hc)
  show (⟨(splitOnChar '.' (pyLower f).data).getLastD []⟩ : String) = pyLower f
  rw [splitOnChar_of_not_mem hnd]
  rfl

theorem c5_witness :
    branchOf (fileExt "a.PNG") = branchOf (fileExt "a.png") ∧
      fileExt "photo" = pyLower "photo" :=
  ⟨c5_dispatch_amended.1 "a.PNG" "a.png" (by decide),
   c5_dispatch_amended.2.2.2.2 "photo" (by decide)⟩

/-! ## C6 -/

/-- C6: keyword extraction is deterministic (a pure function),
case-insensitive and substring-based: any occurrence of
`"Stable Diffusion"` in any letter case puts `"stable diffusion"` into the
hits, and any text matching the whitespace-tolerant word-boundary prompt
pattern gets the synthetic `"prompt field"` hit appended. -/
theorem c6_find_hits (text : String) :
    (∀ v : String, pyLower v = "stable diffusion" → v.data <:+: text.data →
      "stable diffusion" ∈ find_hits text) ∧
    (promptSearch true (pyLower text).data = true → "prompt field" ∈ find_hits text) := by
  constructor
  · intro v hv hinf
    have hmap : "stable diffusion".data <:+: (pyLower text).data := by
      have h1 := List.IsInfix.map pyLowerChar hinf
      have h2 : (pyLower v).data = v.data.map pyLowerChar := rfl
      rw [← h2, hv] at h1
      exact h1
    simp only [find_hits]
    refine List.mem_append_left _ (List.mem_filter.mpr ⟨by decide, ?_⟩)
    exact decide_eq_true hmap
  · intro hp
    simp only [find_hits, hp]
    simp

theorem c6_witness :
    "stable diffusion" ∈ find_hits "Created with Stable Diffusion, Negative Prompt:   night" ∧
    "prompt field" ∈ find_hits "Created with Stable Diffusion, Negative Prompt:   night" :=
  ⟨(c6_find_hits "Created with Stable Diffusion, Negative Prompt:   night").1
      "Stable Diffusion" (by decide) (by decide),
   (c6_find_hits "Created with Stable Diffusion, Negative Prompt:   night").2 (by decide)⟩

/-! ## C7 -/

/-- `true` iff the library query raised (used to describe a degenerate
decode whose every pixel query fails). -/
def isErr {α : Type} : Except String α → Bool
  | .error _ => true
  | .ok _ => false

theorem isErr_exists {α : Type} {x : Except String α} (h : isErr x = true) :
    ∃ e, x = .error e := by
  cases x with
  | error e => exact ⟨e, rfl⟩
  | ok a => exact absurd h (by simp [isErr])

/-- C7: every pixel-signal extractor is a total function, and when its
underlying library queries raise — as for a zero-byte or degenerate
payload — it returns its documented neutral default (`0`, `(0, 0)`, the
`(false, [])` completeness result, or `""` for OCR) instead of
propagating the exception. -/
theorem c7_extractors_total (log2 : ℚ → ℚ) (img : PyImage)
    (hHist : isErr img.grayHistogram = true)
    (hEdges : isErr img.edgesMean = true)
    (hEla : isErr img.elaChannelMeans = true)
    (hColors : isErr img.colorCounts = true)
    (hExif : isErr img.exifTags = true)
    (hGrayShape : isErr img.grayShape = true)
    (hSmallShape : isErr img.smallShape = true)
    (hGrayMS : isErr img.grayMeanStd = true)
    (hSatMS : isErr img.satMeanStd = true)
    (hPixels : isErr img.grayPixels = true)
    (hYShape : isErr img.yShape = true)
    (hYC : isErr img.ycStds = true)
    (hOcr : isErr img.ocrBody = true) :
    shannon_entropy log2 img = 0 ∧ edge_density img = 0 ∧ ela_mean img = 0 ∧
    color_unique_ratio img = 0 ∧ exif_missing img = (false, []) ∧
    laplacian_variance img = 0 ∧ flat_block_ratio img = 0 ∧
    brightness_stats img = (0, 0) ∧ saturation_stats img = (0, 0) ∧
    gray_skewness img = 0 ∧ extreme_pixel_ratios img = (0, 0) ∧
    blockiness_score img = 0 ∧ chroma_luma_ratio img = 0 ∧ ocr_text img = "" := by
  obtain ⟨e1, he1⟩ := isErr_exists hHist
  obtain ⟨e2, he2⟩ := isErr_exists hEdges
  obtain ⟨e3, he3⟩ := isErr_exists hEla
  obtain ⟨e4, he4⟩ := isErr_exists hColors
  obtain ⟨e5, he5⟩ := isErr_exists hExif
  obtain ⟨e6, he6⟩ := isErr_exists hGrayShape
  obtain ⟨e7, he7⟩ := isErr_exists hSmallShape
  obtain ⟨e8, he8⟩ := isErr_exists hGrayMS
  obtain ⟨e9, he9⟩ := isErr_exists hSatMS
  obtain ⟨e10, he10⟩ := isErr_exists hPixels
  obtain ⟨e11, he11⟩ := isErr_exists hYShape
  obtain ⟨e12, he12⟩ := isErr_exists hYC
  obtain ⟨e13, he13⟩ := isErr_exists hOcr
  refine ⟨?_, ?_, ?_, ?_, ?_, ?_, ?_, ?_, ?_, ?_, ?_, ?_, ?_, ?_⟩
  · rw [shannon_entropy, he1]
    rfl
  · rw [edge_density, he2]
    rfl
  · rw [ela_mean, he3]
    rfl
  · rw [color_unique_ratio, he4]
    rfl
  · rw [exif_missing, he5]
  · rw [laplacian_variance, he6]
    rfl
  · rw [flat_block_ratio, he7]
    rfl
  · rw [brightness_stats, he8]
    rfl
  · rw [saturation_stats, he9]
    rfl
  · rw [gray_skewness, he8]
    rfl
  · rw [extreme_pixel_ratios, he10]
    rfl
  · rw [blockiness_score, he11]
    rfl
  · rw [chroma_luma_ratio, he12]
    rfl
  · rw [ocr_text, he13]
    rfl

/-- A degenerate decoded image: every library query raises. -/
def imgUndecodable : PyImage where
  width := 0
  height := 0
  mode := ""
  formatStr := ""
  info := []
  quantizationPresent := false
  exifTags := .error "broken data stream"
  ocrBody := .error "broken data stream"
  grayHistogram := .error "broken data stream"
  edgesMean := .error "broken data stream"
  elaChannelMeans := .error "broken data stream"
  colorCounts := .error "broken data stream"
  grayShape := .error "broken data stream"
  lapConvVar := .error "broken data stream"
  smallShape := .error "broken data stream"
  blockVars := .error "broken data stream"
  grayMeanStd := .error "broken data stream"
  satMeanStd := .error "broken data stream"
  graySkewRaw := .error "broken data stream"
  grayPixels := .error "broken data stream"
  yShape := .error "broken data stream"
  vBoundaryMean := .error "broken data stream"
  hBoundaryMean := .error "broken data stream"
  interiorVMean := .error "broken data stream"
  interiorHMean := .error "broken data stream"
  ycStds := .error "broken data stream"

theorem c7_witness :
    shannon_entropy log2c imgUndecodable = 0 ∧ edge_density imgUndecodable = 0 ∧
    ela_mean imgUndecodable = 0 ∧ color_unique_ratio imgUndecodable = 0 ∧
    exif_missing imgUndecodable = (false, []) ∧ laplacian_variance imgUndecodable = 0 ∧
    flat_block_ratio imgUndecodable = 0 ∧ brightness_stats imgUndecodable = (0, 0) ∧
    saturation_stats imgUndecodable = (0, 0) ∧ gray_skewness imgUndecodable = 0 ∧
    extreme_pixel_ratios imgUndecodable = (0, 0) ∧ blockiness_score imgUndecodable = 0 ∧
    chroma_luma_ratio imgUndecodable = 0 ∧ ocr_text imgUndecodable = "" :=
  c7_extractors_total log2c imgUndecodable rfl rfl rfl rfl rfl rfl rfl rfl rfl rfl rfl rfl rfl

/-! ## C8 -/

/-- C8: the successfully-decoding image pipeline is deterministic — two
calls on the same decoded image (same bytes, same filename) agree on the
whole result (score, breakdown, verdict, reason, details), whatever the
random draws reserved for the fallback branches are. -/
theorem c8_image_deterministic (log2 : ℚ → ℚ) (fn : String) (e₁ e₂ : Env) (img : PyImage)
    (hb : branchOf (fileExt fn) = .image)
    (h1p : e₁.pillowAvailable = true) (h2p : e₂.pillowAvailable = true)
    (h1 : e₁.decode = some img) (h2 : e₂.decode = some img) :
    analyze_image log2 fn e₁ = analyze_image log2 fn e₂ := by
  have step : ∀ e : Env, e.pillowAvailable = true → e.decode = some img →
      analyze_image log2 fn e = analyzeDecodedImage log2 img := by
    intro e hp hd
    rcases analyze_image_raster_cases log2 fn e hb with
      ⟨hp', _⟩ | ⟨_, hd', _⟩ | ⟨i, _, hd', he⟩
    · rw [hp] at hp'
      exact Bool.noConfusion hp'
    · rw [hd] at hd'
      exact Option.noConfusion hd'
    · rw [hd] at hd'
      injection hd' with hi
      rw [he, hi]
  rw [step e₁ h1p h1, step e₂ h2p h2]

/-- Two environments sharing the same successful decode but differing in
every `random.uniform` draw. -/
def envImgA : Env where
  pillowAvailable := true
  decode := some imgNoExif
  decodeErrMsg := ""
  randImage := 41 / 100
  pdfText := ""
  pdfFeats := feats0
  txtText := ""
  txtFeats := feats0
  randDoc := 31 / 100
  randPpt := 31 / 100
  randGeneric := 41 / 100

/-- Same decode as `envImgA`, different random draws. -/
def envImgB : Env where
  pillowAvailable := true
  decode := some imgNoExif
  decodeErrMsg := ""
  randImage := 89 / 100
  pdfText := ""
  pdfFeats := feats0
  txtText := ""
  txtFeats := feats0
  randDoc := 94 / 100
  randPpt := 94 / 100
  randGeneric := 89 / 100

theorem c8_witness :
    analyze_image log2c "photo.jpeg" envImgA = analyze_image log2c "photo.jpeg" envImgB :=
  c8_image_deterministic log2c "photo.jpeg" envImgA envImgB imgNoExif (by decide) rfl rfl rfl rfl

/-! ## C9 -/

theorem textScoreState_fst_bounds (rn : String) (hits : List String)
    (feats : Option TextFeatures) :
    45 / 100 ≤ (textScoreState rn hits feats).1 ∧ (textScoreState rn hits feats).1 ≤ 77 / 100 := by
  cases feats with
  | none =>
    simp only [textScoreState, applyRule_fst]
    split_ifs <;> norm_num
  | some f =>
    simp only [textScoreState, applyRule_fst]
    split_ifs <;> norm_num

/-- C9: the plain-text branch never yields an `"error"` verdict — the
payload text is an unconditional input (UTF-8 decode with undecodable
bytes ignored) — and its score always lies in `[0.45, 0.77]` (base `0.45`
plus at most the `0.25`, `0.06` and `0.01` bumps, which the `[0, 0.98]`
clamp never cuts). -/
theorem c9_txt_branch (log2 : ℚ → ℚ) (fn : String) (env : Env)
    (h : fileExt fn = "txt") :
    ((analyze_image log2 fn env).verdict = "synthetic" ∨
      (analyze_image log2 fn env).verdict = "authentic") ∧
    45 / 100 ≤ (analyze_image log2 fn env).score ∧
    (analyze_image log2 fn env).score ≤ 77 / 100 := by
  have hb : branchOf (fileExt fn) = .txt := by
    rw [h]
    decide
  rw [analyze_image_txt log2 fn env hb]
  obtain ⟨hlo, hhi⟩ := textScoreState_fst_bounds "keyword_hits"
    (if env.txtText ≠ "" then find_hits env.txtText else [])
    (if env.txtText ≠ "" then some env.txtFeats else none)
  have h0 : (0 : ℚ) ≤ (textScoreState "keyword_hits"
      (if env.txtText ≠ "" then find_hits env.txtText else [])
      (if env.txtText ≠ "" then some env.txtFeats else none)).1 :=
    le_trans (by norm_num) hlo
  have h98 : (textScoreState "keyword_hits"
      (if env.txtText ≠ "" then find_hits env.txtText else [])
      (if env.txtText ≠ "" then some env.txtFeats else none)).1 ≤ 98 / 100 :=
    le_trans hhi (by norm_num)
  have hsc : (analyzeTxt env.txtText env.txtFeats).score =
      (textScoreState "keyword_hits"
        (if env.txtText ≠ "" then find_hits env.txtText else [])
        (if env.txtText ≠ "" then some env.txtFeats else none)).1 := by
    rw [analyzeTxt_score, clampQ_of_bounds h0 h98]
  refine ⟨?_, ?_, ?_⟩
  · rw [analyzeTxt_goodVerdict env.txtText env.txtFeats]
    exact verdictOf_cases _
  · rw [hsc]
    exact hlo
  · rw [hsc]
    exact hhi

theorem c9_witness :
    ((analyze_image log2c "notes2.txt" envTxtEmpty).verdict = "synthetic" ∨
      (analyze_image log2c "notes2.txt" envTxtEmpty).verdict = "authentic") ∧
    45 / 100 ≤ (analyze_image log2c "notes2.txt" envTxtEmpty).score ∧
    (analyze_image log2c "notes2.txt" envTxtEmpty).score ≤ 77 / 100 :=
  c9_txt_branch log2c "notes2.txt" envTxtEmpty (by decide)

/-! ## C10 -/

/-- C10: whenever a result carries a `details` mapping (image, PDF and
plain-text branches), `details["final_score"]` equals the top-level score
of that same result; the mock branches (doc/docx, ppt/pptx, unrecognized
extensions) and the image decode-failure fallback carry no `details` at
all. -/
theorem c10_details_final_score (log2 : ℚ → ℚ) (fn : String) (env : Env) :
    (∀ d : Details, (analyze_image log2 fn env).details = some d →
      d.finalScore = (analyze_image log2 fn env).score) ∧
    ((branchOf (fileExt fn) = .document ∨ branchOf (fileExt fn) = .presentation ∨
        branchOf (fileExt fn) = .generic) → (analyze_image log2 fn env).details = none) ∧
    (branchOf (fileExt fn) = .image → env.pillowAvailable = true → env.decode = none →
      (analyze_image log2 fn env).details = none) := by
  refine ⟨?_, ?_, ?_⟩
  · intro d h
    cases hb : branchOf (fileExt fn) with
    | image =>
      rcases analyze_image_raster_cases log2 fn env hb with
        ⟨_, he⟩ | ⟨_, _, he⟩ | ⟨img, _, _, he⟩
      · rw [he] at h
        exact Option.noConfusion h
      · rw [he] at h
        exact Option.noConfusion h
      · rw [he] at h ⊢
        obtain ⟨di, hd, _, hfs⟩ := analyzeDecodedImage_details log2 img
        rw [hd] at h
        injection h with h
        subst h
        exact hfs
    | pdf =>
      rw [analyze_image_pdf log2 fn env hb] at h ⊢
      obtain ⟨dt, hd, _, hfs⟩ := analyzePdf_details env.pdfText env.pdfFeats
      rw [hd] at h
      injection h with h
      subst h
      exact hfs
    | txt =>
      rw [analyze_image_txt log2 fn env hb] at h ⊢
      obtain ⟨dt, hd, _, hfs⟩ := analyzeTxt_details env.txtText env.txtFeats
      rw [hd] at h
      injection h with h
      subst h
      exact hfs
    | document =>
      rw [analyze_image_document log2 fn env hb] at h
      exact Option.noConfusion h
    | presentation =>
      rw [analyze_image_presentation log2 fn env hb] at h
      exact Option.noConfusion h
    | generic =>
      rw [analyze_image_generic log2 fn env hb] at h
      exact Option.noConfusion h
  · intro hdisj
    rcases hdisj with hb | hb | hb
    · rw [analyze_image_document log2 fn env hb]
      exact (mockResult_shape _ _).2
    · rw [analyze_image_presentation log2 fn env hb]
      exact (mockResult_shape _ _).2
    · rw [analyze_image_generic log2 fn env hb]
      exact (mockResult_shape _ _).2
  · intro hb hp hd
    rcases analyze_image_raster_cases log2 fn env hb with
      ⟨hp', _⟩ | ⟨_, _, he⟩ | ⟨img, _, hd', _⟩
    · rw [hp] at hp'
      exact Bool.noConfusion hp'
    · rw [he]
    · rw [hd] at hd'
      exact Option.noConfusion hd'

unseal Rat.mul Rat.inv Rat.add Rat.sub in
theorem c10_witness :
    (analyze_image log2c "slides.pptx" envTxtEmpty).details = none ∧
    (analyze_image log2c "broken.png" envTxtEmpty).details = none ∧
    dTxtEmpty.finalScore = (analyze_image log2c "notes.txt" envTxtEmpty).score :=
  ⟨(c10_details_final_score log2c "slides.pptx" envTxtEmpty).2.1 (Or.inr (Or.inl (by decide))),
   (c10_details_final_score log2c "broken.png" envTxtEmpty).2.2 (by decide) rfl rfl,
   (c10_details_final_score log2c "notes.txt" envTxtEmpty).1 dTxtEmpty (by decide)⟩
